import Mathlib

/-!
Shallow embedding of the query core of `src/backend/server.py` from the
cs-server-embed-generator repository: the A2S protocol client wrapper
`query_cs_server`, the result cache (`get_cache_key`, `get_cached_query`,
`set_cached_query`), the request validation of the `/api/query-server`
route, and the field filtering of the `/api/widget/{widget_id}/status`
route.

The network is modelled as an oracle (`NetworkBehavior`) fixing the
outcome of the two `a2s` calls and the values returned by the four
`time.time()` reads of one call; times and floats are embedded as
rationals.  The global `query_cache` dict becomes explicit state passed
in and out of `query_cs_server`, and the returned `CallOutcome` also
counts the network round trips the call performed.
-/

namespace CSWidget

/-- The parsed fields of a successful `a2s.info` response (the attributes of
the `a2s` info object that `server.py` reads). -/
structure InfoResponse where
  server_name : String
  map_name : String
  player_count : ℕ
  max_players : ℕ
  game : String
  server_type : String
  platform : String
  password_protected : Bool
  vac_enabled : Bool
deriving DecidableEq

/-- One entry of the `a2s.players` response, before any filtering. -/
structure RawPlayer where
  name : String
  score : ℤ
  duration : ℚ
deriving DecidableEq

/-- One entry of the `player_list` built at lines 175-178 of `server.py`:
`{"name": p.name, "score": p.score, "duration": round(p.duration, 2)}`. -/
structure Player where
  name : String
  score : ℤ
  duration : ℚ
deriving DecidableEq

/-- The exception raised by `a2s.info`, by catch clause of `server.py`
lines 203-209: `socket.timeout`, `ConnectionRefusedError`, or any other
exception carrying a string rendering `str(e)`. -/
inductive QueryException where
  | timeout
  | connectionRefused
  | other (details : String)
deriving DecidableEq

/-- The `"data"` dict of a successful `query_cs_server` result
(lines 184-196 of `server.py`). -/
structure SuccessData where
  hostname : String
  map : String
  current_players : ℕ
  max_players : ℕ
  game : String
  server_type : String
  os : String
  password_protected : Bool
  vac_enabled : Bool
  ping : ℚ
  player_list : List Player
deriving DecidableEq

/-- The dict returned by `query_cs_server`: either
`{"success": True, "data": {...}}` or `{"success": False, "error": msg}`. -/
inductive QueryResult where
  | success (data : SuccessData)
  | failure (error : String)
deriving DecidableEq

/-- The `"success"` flag of a `query_cs_server` result dict. -/
def QueryResult.isSuccess : QueryResult → Bool
  | .success _ => true
  | .failure _ => false

/-- The `"player_list"` field of a result (empty for an error result). -/
def QueryResult.playerList : QueryResult → List Player
  | .success d => d.player_list
  | .failure _ => []

/-- The `"ping"` field of a result, when the result is a success. -/
def QueryResult.pingOf : QueryResult → Option ℚ
  | .success d => some d.ping
  | .failure _ => none

/-! ### Python `round(x, 2)`

Python rounds floats with round-half-to-even; the embedding does the
same exactly on rationals. -/

/-- Round-half-to-even of a rational to an integer, the rounding mode of
Python `round`. -/
def roundHalfEven (q : ℚ) : ℤ :=
  if q - (⌊q⌋ : ℚ) < 1/2 then ⌊q⌋
  else if 1/2 < q - (⌊q⌋ : ℚ) then ⌊q⌋ + 1
  else if ⌊q⌋ % 2 = 0 then ⌊q⌋ else ⌊q⌋ + 1

/-- Python `round(q, 2)`: round to two decimal places, half to even. -/
def pyRound2 (q : ℚ) : ℚ := (roundHalfEven (q * 100) : ℚ) / 100

/-! ### Python `str` of an integer

`get_cache_key` renders the port with an f-string, i.e. Python `str(int)`:
the decimal digits of the absolute value, preceded by a minus sign when
negative.  The digits are produced most significant first; the fuel
argument of `digitsRevAux` is an upper bound on the value making the
recursion structural. -/

/-- The decimal digit character for `d % 10`-style arguments below 10
(arguments at or above 9 all map to the digit 9; callers pass `n % 10`). -/
def digitChar : ℕ → Char
  | 0 => '0'
  | 1 => '1'
  | 2 => '2'
  | 3 => '3'
  | 4 => '4'
  | 5 => '5'
  | 6 => '6'
  | 7 => '7'
  | 8 => '8'
  | _ => '9'

/-- Numeric value of a decimal digit character (inverse of `digitChar`). -/
def digitVal : Char → ℕ
  | '0' => 0
  | '1' => 1
  | '2' => 2
  | '3' => 3
  | '4' => 4
  | '5' => 5
  | '6' => 6
  | '7' => 7
  | '8' => 8
  | _ => 9

/-- Decimal digits of `n`, least significant first; `fuel ≥ n` suffices. -/
def digitsRevAux : ℕ → ℕ → List Char
  | 0, _ => []
  | fuel + 1, n => if n = 0 then [] else digitChar (n % 10) :: digitsRevAux fuel (n / 10)

/-- Decimal digit characters of a natural number, most significant first. -/
def natChars (n : ℕ) : List Char :=
  if n = 0 then ['0'] else (digitsRevAux n n).reverse

/-- Python `str` of a natural number. -/
def strOfNat (n : ℕ) : String := ⟨natChars n⟩

/-- Python `str` of an integer. -/
def strOfInt (z : ℤ) : String :=
  if z < 0 then "-" ++ strOfNat z.natAbs else strOfNat z.natAbs

/-! ### The result cache (`server.py` lines 131-151) -/

/-- The global `query_cache` dict, mapping cache keys to
`(cached_data, timestamp)` pairs. -/
abbrev Cache := String → Option (QueryResult × ℚ)

/-- The initial, empty `query_cache`. -/
def emptyCache : Cache := fun _ => none

/-- Constant `CACHE_DURATION = 10  # seconds`. -/
def CACHE_DURATION : ℚ := 10

/-- Source `get_cache_key`: the f-string joining ip and port with a colon. -/
def get_cache_key (ip : String) (port : ℤ) : String :=
  ip ++ ":" ++ strOfInt port

/-- Source `get_cached_query`: return the cached data if the key is present and
`time.time() - timestamp < CACHE_DURATION`; `now` is the value of the
`time.time()` read at line 144. -/
def get_cached_query (cache : Cache) (now : ℚ) (ip : String) (port : ℤ) :
    Option QueryResult :=
  match cache (get_cache_key ip port) with
  | some (cached_data, timestamp) =>
      if now - timestamp < CACHE_DURATION then some cached_data else none
  | none => none

/-- Source `set_cached_query`: store `(data, time.time())` under the key,
replacing any previous entry; `now` is the `time.time()` read at
line 151. -/
def set_cached_query (cache : Cache) (now : ℚ) (ip : String) (port : ℤ)
    (data : QueryResult) : Cache :=
  fun k => if k = get_cache_key ip port then some (data, now) else cache k

/-! ### The protocol client `query_cs_server` (lines 154-209) -/

/-- Oracle for one `query_cs_server` call: the outcomes of the `a2s.info`
and `a2s.players` round trips and the values of the `time.time()` reads
(at the cache lookup, before and after `a2s.info`, and at the cache
store). -/
structure NetworkBehavior where
  lookupTime : ℚ
  sendTime : ℚ
  recvTime : ℚ
  storeTime : ℚ
  infoResult : Except QueryException InfoResponse
  playersResult : Except String (List RawPlayer)

/-- Outcome of one `query_cs_server` call: the returned dict, the cache
state after the call, and how many network round trips to `a2s.info` the
call performed. -/
structure CallOutcome where
  result : QueryResult
  cache : Cache
  networkCalls : ℕ

/-- Lines 175-178: keep the players whose name is truthy (non-empty) and
record name, score and `round(p.duration, 2)`, in the order received. -/
def build_player_list (ps : List RawPlayer) : List Player :=
  ps.filterMap fun p =>
    if p.name = "" then none else some ⟨p.name, p.score, pyRound2 p.duration⟩

/-- The `"data"` dict built at lines 184-196 from the info response, the
measured ping and the player list. -/
def info_data (info : InfoResponse) (ping : ℚ) (player_list : List Player) :
    SuccessData :=
  { hostname := info.server_name
    map := info.map_name
    current_players := info.player_count
    max_players := info.max_players
    game := info.game
    server_type := info.server_type
    os := info.platform
    password_protected := info.password_protected
    vac_enabled := info.vac_enabled
    ping := ping
    player_list := player_list }

/-- Source `query_cs_server(ip, port, timeout)` (lines 154-209): consult the
cache; on a hit return the cached dict unchanged.  On a miss run
`a2s.info`, measuring `ping = (time.time() - start_time) * 1000`; if it
raises, return the error dict of the matching handler without touching
the cache.  Otherwise run `a2s.players` with a blanket exception guard
yielding an empty player list, build the success dict with
`round(ping, 2)`, store it in the cache and return it.  The `timeout`
argument is forwarded to the `a2s` calls, whose outcomes the oracle
`env` already fixes. -/
def query_cs_server (env : NetworkBehavior) (cache : Cache) (ip : String)
    (port : ℤ) (timeout : ℚ := 3) : CallOutcome :=
  match get_cached_query cache env.lookupTime ip port with
  | some cached_result => { result := cached_result, cache := cache, networkCalls := 0 }
  | none =>
    match env.infoResult with
    | .error .timeout =>
        { result := .failure "Connection timeout - server may be offline"
          cache := cache, networkCalls := 1 }
    | .error .connectionRefused =>
        { result := .failure "Connection refused - invalid IP or port"
          cache := cache, networkCalls := 1 }
    | .error (.other e) =>
        { result := .failure ("Failed to query server: " ++ e)
          cache := cache, networkCalls := 1 }
    | .ok info =>
        let ping : ℚ := (env.recvTime - env.sendTime) * 1000
        let player_list : List Player :=
          match env.playersResult with
          | .ok ps => build_player_list ps
          | .error _ => []
        let result : QueryResult := .success (info_data info (pyRound2 ping) player_list)
        { result := result
          cache := set_cached_query cache env.storeTime ip port result
          networkCalls := 1 }

/-! ### Request validation of `/api/query-server` (lines 40-49, 232-245) -/

/-- The `ServerQueryRequest` pydantic model after validation; `timeout`
defaults to `3.0`. -/
structure ServerQueryRequest where
  ip : String
  port : ℤ
  timeout : ℚ := 3
deriving DecidableEq

/-- The `validate_port` validator: raise
`ValueError("Port must be between 1 and 65535")` unless
`1 <= v <= 65535`, else return `v` unchanged. -/
def validate_port (v : ℤ) : Except String ℤ :=
  if 1 ≤ v ∧ v ≤ 65535 then .ok v else .error "Port must be between 1 and 65535"

/-- Pydantic parsing of a `/api/query-server` body: run `validate_port`
on the supplied port and apply the `3.0` default when `timeout` is not
supplied.  Validation failure rejects the request before the handler
body runs. -/
def parse_server_query_request (ip : String) (port : ℤ) (timeout : Option ℚ) :
    Except String ServerQueryRequest :=
  match validate_port port with
  | .error e => .error e
  | .ok p => .ok { ip := ip, port := p, timeout := timeout.getD 3 }

/-- The `/api/query-server` route: parse and validate the request, then
dispatch `query_cs_server` with the validated fields.  A validation
error returns before any query is attempted. -/
def query_server_route (env : NetworkBehavior) (cache : Cache) (ip : String)
    (port : ℤ) (timeout : Option ℚ) : Except String CallOutcome :=
  (parse_server_query_request ip port timeout).map fun req =>
    query_cs_server env cache req.ip req.port req.timeout

/-! ### Field filtering of `/api/widget/{widget_id}/status` (lines 307-311) -/

/-- A value stored in the success `"data"` dict. -/
inductive FieldValue where
  | str (s : String)
  | nat (n : ℕ)
  | bool (b : Bool)
  | rat (q : ℚ)
  | players (l : List Player)
deriving DecidableEq

/-- Key lookup in the success `"data"` dict (`field in result["data"]`):
the dict has exactly the eleven keys written at lines 184-196. -/
def SuccessData.lookup (d : SuccessData) (f : String) : Option FieldValue :=
  if f = "hostname" then some (.str d.hostname)
  else if f = "map" then some (.str d.map)
  else if f = "current_players" then some (.nat d.current_players)
  else if f = "max_players" then some (.nat d.max_players)
  else if f = "game" then some (.str d.game)
  else if f = "server_type" then some (.str d.server_type)
  else if f = "os" then some (.str d.os)
  else if f = "password_protected" then some (.bool d.password_protected)
  else if f = "vac_enabled" then some (.bool d.vac_enabled)
  else if f = "ping" then some (.rat d.ping)
  else if f = "player_list" then some (.players d.player_list)
  else none

/-- Lines 307-311 of `get_server_status`: iterate the saved
`enabled_fields` items in order and keep `field: data[field]` exactly
when the flag is true and the key is present in the success data. -/
def filter_enabled_fields (enabled_fields : List (String × Bool))
    (d : SuccessData) : List (String × FieldValue) :=
  enabled_fields.filterMap fun fe =>
    if fe.2 = true then (d.lookup fe.1).map fun v => (fe.1, v) else none

/-! ### Auxiliary definitions for the development -/

/-- Numeric value of a least-significant-first decimal digit list, used to
invert `digitsRevAux`. -/
def valOfRev : List Char → ℕ
  | [] => 0
  | c :: cs => digitVal c + 10 * valOfRev cs

/-! ### Concrete fixtures -/

/-- Sample info response, after the worked example of the spec. -/
def info0 : InfoResponse :=
  ⟨"Test Server", "de_dust2", 10, 32, "Counter-Strike", "d", "l", false, true⟩

/-- Sample cached result. -/
def r0 : QueryResult := .failure "offline"

/-- Cache holding `(r0, 0)` under every key. -/
def constCache : Cache := fun _ => some (r0, 0)

/-- Oracle: info succeeds, player-list query raises. -/
def envC1 : NetworkBehavior := ⟨0, 0, 0, 0, .ok info0, .error "players failed"⟩

/-- Oracle: info times out, at time 0. -/
def envErr1 : NetworkBehavior := ⟨0, 0, 0, 0, .error .timeout, .error "x"⟩

/-- Oracle: info times out, at time 1. -/
def envErr2 : NetworkBehavior := ⟨1, 1, 1, 1, .error .timeout, .error "x"⟩

/-- Oracle: connection refused. -/
def envRefused : NetworkBehavior := ⟨0, 0, 0, 0, .error .connectionRefused, .error "x"⟩

/-- Oracle: some other protocol exception. -/
def envOther : NetworkBehavior := ⟨0, 0, 0, 0, .error (.other "boom"), .error "x"⟩

/-- Oracle: full success at time 0, stored at time 1. -/
def envOk1 : NetworkBehavior := ⟨0, 0, 1/2, 1, .ok info0, .ok []⟩

/-- Oracle: full success at time 2. -/
def envOk2 : NetworkBehavior := ⟨2, 2, 2, 2, .ok info0, .ok []⟩

/-- Raw player list with one padding slot (empty name) and one real
player whose duration needs rounding. -/
def rawPlayers0 : List RawPlayer := [⟨"", 7, 0⟩, ⟨"alpha", 5, 1/8⟩]

/-- Oracle: success with `rawPlayers0` as the player response. -/
def envPlayers : NetworkBehavior := ⟨0, 0, 0, 0, .ok info0, .ok rawPlayers0⟩

/-- Sample field-visibility mapping. -/
def enabled0 : List (String × Bool) :=
  [("hostname", true), ("map", false), ("player_list", true)]

/-- Sample success data. -/
def data0 : SuccessData := info_data info0 0 []

/-! ### Lemmas on rounding -/

theorem roundHalfEven_nonneg {q : ℚ} (h : 0 ≤ q) : 0 ≤ roundHalfEven q := by
  have hf : (0 : ℤ) ≤ ⌊q⌋ := Int.floor_nonneg.mpr h
  unfold roundHalfEven
  split_ifs <;> omega

theorem pyRound2_nonneg {q : ℚ} (h : 0 ≤ q) : 0 ≤ pyRound2 q := by
  have h100 : (0 : ℚ) ≤ q * 100 := by positivity
  have := roundHalfEven_nonneg h100
  unfold pyRound2
  have : (0 : ℚ) ≤ (roundHalfEven (q * 100) : ℚ) := by exact_mod_cast this
  positivity

/-! ### Lemmas on decimal strings -/

theorem digitVal_digitChar {d : ℕ} (h : d < 10) : digitVal (digitChar d) = d := by
  have : ∀ e < 10, digitVal (digitChar e) = e := by decide
  exact this d h

theorem digitChar_ne_colon (d : ℕ) : digitChar d ≠ ':' := by
  unfold digitChar
  split <;> decide

theorem digitChar_ne_dash (d : ℕ) : digitChar d ≠ '-' := by
  unfold digitChar
  split <;> decide

theorem valOfRev_digitsRevAux :
    ∀ fuel n : ℕ, n ≤ fuel → valOfRev (digitsRevAux fuel n) = n := by
  intro fuel
  induction fuel with
  | zero =>
      intro n hn
      interval_cases n
      rfl
  | succ fuel ih =>
      intro n hn
      by_cases h0 : n = 0
      · subst h0; rfl
      · have hdiv : n / 10 ≤ fuel := by
          have : n / 10 < n := Nat.div_lt_self (Nat.pos_of_ne_zero h0) (by norm_num)
          omega
        simp only [digitsRevAux, if_neg h0, valOfRev]
        rw [ih (n / 10) hdiv, digitVal_digitChar (Nat.mod_lt n (by norm_num))]
        omega

theorem mem_digitsRevAux {c : Char} :
    ∀ {fuel n : ℕ}, c ∈ digitsRevAux fuel n → c ≠ ':' ∧ c ≠ '-' := by
  intro fuel
  induction fuel with
  | zero => intro n h; simp [digitsRevAux] at h
  | succ fuel ih =>
      intro n h
      by_cases h0 : n = 0
      · subst h0; simp [digitsRevAux] at h
      · simp only [digitsRevAux, if_neg h0, List.mem_cons] at h
        rcases h with h | h
        · subst h; exact ⟨digitChar_ne_colon _, digitChar_ne_dash _⟩
        · exact ih h

theorem mem_natChars {c : Char} {n : ℕ} (h : c ∈ natChars n) :
    c ≠ ':' ∧ c ≠ '-' := by
  unfold natChars at h
  split_ifs at h with h0
  · simp at h
    subst h
    exact ⟨by decide, by decide⟩
  · exact mem_digitsRevAux (List.mem_reverse.mp h)

theorem natChars_injective {n m : ℕ} (h : natChars n = natChars m) : n = m := by
  unfold natChars at h
  split_ifs at h with h1 h2 h2
  · omega
  · exfalso
    have : digitsRevAux m m = ['0'] := by
      have := congrArg List.reverse h
      simpa using this.symm
    have hv := valOfRev_digitsRevAux m m le_rfl
    rw [this] at hv
    simp [valOfRev, digitVal] at hv
    omega
  · exfalso
    have : digitsRevAux n n = ['0'] := by
      have := congrArg List.reverse h
      simpa using this
    have hv := valOfRev_digitsRevAux n n le_rfl
    rw [this] at hv
    simp [valOfRev, digitVal] at hv
    omega
  · have : digitsRevAux n n = digitsRevAux m m := by
      have := congrArg List.reverse h
      simpa using this
    have hn := valOfRev_digitsRevAux n n le_rfl
    have hm := valOfRev_digitsRevAux m m le_rfl
    rw [this] at hn
    omega

theorem strOfNat_injective {n m : ℕ} (h : strOfNat n = strOfNat m) : n = m :=
  natChars_injective (congrArg String.data h)

theorem strOfNat_data {n : ℕ} : (strOfNat n).data = natChars n := rfl

theorem strOfInt_data_ne_colon {z : ℤ} {c : Char} (h : c ∈ (strOfInt z).data) :
    c ≠ ':' := by
  unfold strOfInt at h
  split_ifs at h
  · rw [String.data_append] at h
    rcases List.mem_append.mp h with h | h
    · simp only [show ("-" : String).data = ['-'] from rfl, List.mem_singleton] at h
      subst h; decide
    · exact (mem_natChars h).1
  · exact (mem_natChars h).1

theorem strOfInt_injective {z w : ℤ} (h : strOfInt z = strOfInt w) : z = w := by
  have hd := congrArg String.data h
  unfold strOfInt at hd
  split_ifs at hd with hz hw hw
  · rw [String.data_append, String.data_append] at hd
    simp only [show ("-" : String).data = ['-'] from rfl, List.singleton_append,
      List.cons.injEq, true_and] at hd
    have := natChars_injective hd
    omega
  · exfalso
    rw [String.data_append] at hd
    simp only [show ("-" : String).data = ['-'] from rfl, List.singleton_append] at hd
    have : '-' ∈ natChars w.natAbs := by
      rw [← strOfNat_data, ← hd]
      exact List.mem_cons_self _ _
    exact (mem_natChars this).2 rfl
  · exfalso
    rw [String.data_append] at hd
    simp only [show ("-" : String).data = ['-'] from rfl, List.singleton_append] at hd
    have : '-' ∈ natChars z.natAbs := by
      rw [← strOfNat_data, hd]
      exact List.mem_cons_self _ _
    exact (mem_natChars this).2 rfl
  · have := natChars_injective hd
    omega

theorem append_colon_cancel :
    ∀ (a : List Char) (b : List Char) (u v : List Char),
      (∀ c ∈ u, c ≠ ':') → (∀ c ∈ v, c ≠ ':') →
      a ++ ':' :: u = b ++ ':' :: v → a = b ∧ u = v := by
  intro a
  induction a with
  | nil =>
      intro b u v hu hv h
      cases b with
      | nil => simpa using h
      | cons y ys =>
          exfalso
          simp only [List.nil_append, List.cons_append, List.cons.injEq] at h
          have : ':' ∈ u := by
            rw [h.2]
            exact List.mem_append_right _ (List.mem_cons_self _ _)
          exact hu _ this rfl
  | cons x xs ih =>
      intro b u v hu hv h
      cases b with
      | nil =>
          exfalso
          simp only [List.nil_append, List.cons_append, List.cons.injEq] at h
          have : ':' ∈ v := by
            rw [← h.2]
            exact List.mem_append_right _ (List.mem_cons_self _ _)
          exact hv _ this rfl
      | cons y ys =>
          simp only [List.cons_append, List.cons.injEq] at h
          obtain ⟨hxy, hrest⟩ := h
          obtain ⟨h1, h2⟩ := ih ys u v hu hv hrest
          exact ⟨by rw [hxy, h1], h2⟩

theorem get_cache_key_injective {ip1 ip2 : String} {p1 p2 : ℤ}
    (h : get_cache_key ip1 p1 = get_cache_key ip2 p2) : ip1 = ip2 ∧ p1 = p2 := by
  have hd := congrArg String.data h
  unfold get_cache_key at hd
  rw [String.data_append, String.data_append, String.data_append,
    String.data_append] at hd
  simp only [show (":" : String).data = [':'] from rfl, List.append_assoc,
    List.singleton_append] at hd
  obtain ⟨hip, hport⟩ := append_colon_cancel _ _ _ _
    (fun c hc => strOfInt_data_ne_colon hc) (fun c hc => strOfInt_data_ne_colon hc) hd
  exact ⟨String.ext hip, strOfInt_injective (String.ext hport)⟩

/-! ### Lemmas on association lists -/

theorem lookup_eq_some_iff {β : Type} {l : List (String × β)} {a : String} {b : β}
    (hnodup : (l.map Prod.fst).Nodup) : l.lookup a = some b ↔ (a, b) ∈ l := by
  induction l with
  | nil => simp [List.lookup]
  | cons kc t ih =>
      obtain ⟨k, c⟩ := kc
      simp only [List.map_cons, List.nodup_cons, List.mem_map] at hnodup
      obtain ⟨hknot, hnd⟩ := hnodup
      by_cases hak : a = k
      · subst hak
        simp only [List.lookup_cons, beq_self_eq_true, List.mem_cons, Prod.mk.injEq,
          true_and, Option.some.injEq]
        constructor
        · intro h; exact Or.inl h.symm
        · rintro (h | h)
          · exact h.symm
          · exact absurd ⟨(a, b), h, rfl⟩ hknot
      · simp only [List.lookup_cons, beq_false_of_ne hak, List.mem_cons, Prod.mk.injEq]
        rw [ih hnd]
        constructor
        · exact Or.inr
        · rintro (⟨h1, _⟩ | h)
          · exact absurd h1 hak
          · exact h

/-! ### Lemmas on the player-list filter -/

theorem build_player_list_eq (ps : List RawPlayer) :
    build_player_list ps =
      (ps.filter fun p => p.name != "").map
        fun p => ⟨p.name, p.score, pyRound2 p.duration⟩ := by
  induction ps with
  | nil => rfl
  | cons p t ih =>
      by_cases h : p.name = ""
      · simpa [build_player_list, List.filterMap_cons, List.filter_cons, h] using ih
      · simpa [build_player_list, List.filterMap_cons, List.filter_cons, h] using ih

/-! ### Reduction lemmas for `get_cached_query` -/

theorem get_cached_query_some {cache : Cache} {ip : String} {port : ℤ}
    {data : QueryResult} {ts : ℚ}
    (h : cache (get_cache_key ip port) = some (data, ts)) (now : ℚ) :
    get_cached_query cache now ip port =
      if now - ts < CACHE_DURATION then some data else none := by
  unfold get_cached_query
  rw [h]

theorem get_cached_query_absent {cache : Cache} {ip : String} {port : ℤ}
    (h : cache (get_cache_key ip port) = none) (now : ℚ) :
    get_cached_query cache now ip port = none := by
  unfold get_cached_query
  rw [h]

/-! ## The claims -/

/-- C1: if the cache misses, the info query succeeds and the player-list
sub-query raises any exception, `query_cs_server` still returns a
successful result whose data fields are parsed from the info response
and whose player list is empty; the player-list failure is not surfaced
as an error. -/
theorem claim_C1_player_failure_degrades (env : NetworkBehavior) (cache : Cache)
    (ip : String) (port : ℤ) (t : ℚ) (info : InfoResponse) (err : String)
    (hmiss : get_cached_query cache env.lookupTime ip port = none)
    (hinfo : env.infoResult = .ok info)
    (hplayers : env.playersResult = .error err) :
    (query_cs_server env cache ip port t).result.isSuccess = true ∧
    (query_cs_server env cache ip port t).result =
      .success (info_data info (pyRound2 ((env.recvTime - env.sendTime) * 1000)) []) := by
  simp [query_cs_server, hmiss, hinfo, hplayers, QueryResult.isSuccess]

/-- Witness for C1: a concrete run in which the player-list query raises
while the info query succeeds. -/
theorem claim_C1_witness :
    get_cached_query emptyCache envC1.lookupTime "203.0.113.5" 27015 = none ∧
    envC1.infoResult = .ok info0 ∧
    envC1.playersResult = .error "players failed" ∧
    (query_cs_server envC1 emptyCache "203.0.113.5" 27015 2).result.isSuccess = true ∧
    (query_cs_server envC1 emptyCache "203.0.113.5" 27015 2).result =
      .success (info_data info0 (pyRound2 ((envC1.recvTime - envC1.sendTime) * 1000)) []) := by
  have h := claim_C1_player_failure_degrades envC1 emptyCache "203.0.113.5" 27015 2
    info0 "players failed" rfl rfl rfl
  exact ⟨rfl, rfl, rfl, h.1, h.2⟩

/-- C2 counterexample: a timed-out query is not stored in the cache, so
a second call for the same endpoint within TTL performs a new network
round trip instead of returning the cached error. -/
theorem claim_C2_counterexample :
    (query_cs_server envErr1 emptyCache "203.0.113.5" 27015 3).result =
      .failure "Connection timeout - server may be offline" ∧
    (query_cs_server envErr1 emptyCache "203.0.113.5" 27015 3).cache
      (get_cache_key "203.0.113.5" 27015) = none ∧
    (query_cs_server envErr2
        (query_cs_server envErr1 emptyCache "203.0.113.5" 27015 3).cache
        "203.0.113.5" 27015 3).networkCalls = 1 :=
  ⟨rfl, rfl, rfl⟩

/-- C2 amended: on a cache miss only a successful outcome is stored; an
error outcome leaves the cache unchanged, so when the endpoint has no
cache entry a second call after an error performs a fresh network query
rather than returning a cached error. -/
theorem claim_C2_only_success_cached (env : NetworkBehavior) (cache : Cache)
    (ip : String) (port : ℤ) (t : ℚ)
    (hmiss : get_cached_query cache env.lookupTime ip port = none) :
    (∀ ex, env.infoResult = .error ex →
      (query_cs_server env cache ip port t).cache = cache ∧
      ∀ env2 t2, cache (get_cache_key ip port) = none →
        (query_cs_server env2 (query_cs_server env cache ip port t).cache
          ip port t2).networkCalls = 1) ∧
    (∀ info, env.infoResult = .ok info →
      (query_cs_server env cache ip port t).cache =
        set_cached_query cache env.storeTime ip port
          (query_cs_server env cache ip port t).result) := by
  constructor
  · intro ex hex
    have hcache : (query_cs_server env cache ip port t).cache = cache := by
      cases ex <;> simp [query_cs_server, hmiss, hex]
    refine ⟨hcache, ?_⟩
    intro env2 t2 habsent
    rw [hcache]
    have hmiss2 : get_cached_query cache env2.lookupTime ip port = none :=
      get_cached_query_absent habsent _
    cases henv2 : env2.infoResult with
    | error ex2 => cases ex2 <;> simp [query_cs_server, hmiss2, henv2]
    | ok info2 => simp [query_cs_server, hmiss2, henv2]
  · intro info hinfo
    simp [query_cs_server, hmiss, hinfo]

/-- Witness for C2 amended: concrete error and success runs on the empty
cache. -/
theorem claim_C2_witness :
    get_cached_query emptyCache envErr1.lookupTime "203.0.113.5" 27015 = none ∧
    envErr1.infoResult = .error .timeout ∧
    emptyCache (get_cache_key "203.0.113.5" 27015) = none ∧
    (query_cs_server envErr1 emptyCache "203.0.113.5" 27015 3).cache = emptyCache ∧
    (query_cs_server envErr2
      (query_cs_server envErr1 emptyCache "203.0.113.5" 27015 3).cache
      "203.0.113.5" 27015 3).networkCalls = 1 ∧
    envOk1.infoResult = .ok info0 ∧
    (query_cs_server envOk1 emptyCache "203.0.113.5" 27015 3).cache =
      set_cached_query emptyCache envOk1.storeTime "203.0.113.5" 27015
        (query_cs_server envOk1 emptyCache "203.0.113.5" 27015 3).result := by
  have h := claim_C2_only_success_cached envErr1 emptyCache "203.0.113.5" 27015 3 rfl
  have hok := claim_C2_only_success_cached envOk1 emptyCache "203.0.113.5" 27015 3 rfl
  have herr := h.1 .timeout rfl
  exact ⟨rfl, rfl, rfl, herr.1, herr.2 envErr2 3 rfl, rfl, hok.2 info0 rfl⟩

/-- C3: a stored cache entry is returned by `get_cached_query` exactly
when the lookup happens less than `CACHE_DURATION = 10` seconds after
the store; an expired or absent entry is a miss, and on an expired
entry `query_cs_server` performs a fresh network round trip. -/
theorem claim_C3_ttl_lookup (cache : Cache) (ip : String) (port : ℤ)
    (data : QueryResult) (tstore tlook : ℚ)
    (horder : tstore < tlook)
    (hstore : cache (get_cache_key ip port) = some (data, tstore)) :
    CACHE_DURATION = 10 ∧
    (get_cached_query cache tlook ip port = some data ↔
      tlook - tstore < CACHE_DURATION) ∧
    (CACHE_DURATION ≤ tlook - tstore →
      get_cached_query cache tlook ip port = none ∧
      ∀ env t, env.lookupTime = tlook →
        (query_cs_server env cache ip port t).networkCalls = 1) ∧
    (∀ cache2 : Cache, cache2 (get_cache_key ip port) = none →
      get_cached_query cache2 tlook ip port = none) := by
  refine ⟨rfl, ?_, ?_, ?_⟩
  · rw [get_cached_query_some hstore]
    constructor
    · intro h
      by_contra hc
      rw [if_neg hc] at h
      exact Option.noConfusion h
    · intro h; rw [if_pos h]
  · intro h
    have hnone : get_cached_query cache tlook ip port = none := by
      rw [get_cached_query_some hstore, if_neg (not_lt.mpr h)]
    refine ⟨hnone, ?_⟩
    intro env t henv
    rw [← henv] at hnone
    cases hres : env.infoResult with
    | error ex => cases ex <;> simp [query_cs_server, hnone, hres]
    | ok info => simp [query_cs_server, hnone, hres]
  · intro cache2 h2
    exact get_cached_query_absent h2 _

/-- Witness for C3: a cache holding one entry stored at time 0, looked
up at times 1 (hit) and 11 (miss with a fresh round trip). -/
theorem claim_C3_witness :
    (0 : ℚ) < 1 ∧ constCache (get_cache_key "203.0.113.5" 27015) = some (r0, 0) ∧
    (CACHE_DURATION = 10 ∧
      (get_cached_query constCache 1 "203.0.113.5" 27015 = some r0 ↔
        (1 : ℚ) - 0 < CACHE_DURATION) ∧
      (CACHE_DURATION ≤ (1 : ℚ) - 0 →
        get_cached_query constCache 1 "203.0.113.5" 27015 = none ∧
        ∀ env t, env.lookupTime = 1 →
          (query_cs_server env constCache "203.0.113.5" 27015 t).networkCalls = 1) ∧
      (∀ cache2 : Cache, cache2 (get_cache_key "203.0.113.5" 27015) = none →
        get_cached_query cache2 1 "203.0.113.5" 27015 = none)) :=
  ⟨by norm_num, rfl,
    claim_C3_ttl_lookup constCache "203.0.113.5" 27015 r0 0 1 (by norm_num) rfl⟩

/-- C4: after a call that stores its result, a second call for the same
endpoint within TTL returns the identical result (in particular the
same ping) with no network round trip, so the two calls perform at most
one round trip in total. -/
theorem claim_C4_hit_identical (env1 env2 : NetworkBehavior) (cache : Cache)
    (ip : String) (port : ℤ) (t1 t2 : ℚ) (info : InfoResponse)
    (hmiss : get_cached_query cache env1.lookupTime ip port = none)
    (hinfo : env1.infoResult = .ok info)
    (httl : env2.lookupTime - env1.storeTime < CACHE_DURATION) :
    (query_cs_server env2 (query_cs_server env1 cache ip port t1).cache
        ip port t2).result = (query_cs_server env1 cache ip port t1).result ∧
    (query_cs_server env2 (query_cs_server env1 cache ip port t1).cache
        ip port t2).networkCalls = 0 ∧
    (query_cs_server env1 cache ip port t1).networkCalls +
      (query_cs_server env2 (query_cs_server env1 cache ip port t1).cache
        ip port t2).networkCalls ≤ 1 ∧
    (query_cs_server env2 (query_cs_server env1 cache ip port t1).cache
        ip port t2).result.pingOf =
      (query_cs_server env1 cache ip port t1).result.pingOf := by
  have h1cache : (query_cs_server env1 cache ip port t1).cache =
      set_cached_query cache env1.storeTime ip port
        (query_cs_server env1 cache ip port t1).result := by
    simp [query_cs_server, hmiss, hinfo]
  have h1net : (query_cs_server env1 cache ip port t1).networkCalls = 1 := by
    simp [query_cs_server, hmiss, hinfo]
  have hhit : get_cached_query (query_cs_server env1 cache ip port t1).cache
      env2.lookupTime ip port = some (query_cs_server env1 cache ip port t1).result := by
    rw [h1cache]
    simp [get_cached_query, set_cached_query, httl]
  have h2 : query_cs_server env2 (query_cs_server env1 cache ip port t1).cache
      ip port t2 = ⟨(query_cs_server env1 cache ip port t1).result,
        (query_cs_server env1 cache ip port t1).cache, 0⟩ := by
    rw [query_cs_server, hhit]
  rw [h2, h1net]
  exact ⟨rfl, rfl, by norm_num, rfl⟩

/-- Witness for C4: a successful call at time 0 stored at time 1,
re-queried at time 2. -/
theorem claim_C4_witness :
    get_cached_query emptyCache envOk1.lookupTime "203.0.113.5" 27015 = none ∧
    envOk1.infoResult = .ok info0 ∧
    envOk2.lookupTime - envOk1.storeTime < CACHE_DURATION ∧
    (query_cs_server envOk2 (query_cs_server envOk1 emptyCache "203.0.113.5" 27015 3).cache
        "203.0.113.5" 27015 3).result =
      (query_cs_server envOk1 emptyCache "203.0.113.5" 27015 3).result ∧
    (query_cs_server envOk2 (query_cs_server envOk1 emptyCache "203.0.113.5" 27015 3).cache
        "203.0.113.5" 27015 3).networkCalls = 0 ∧
    (query_cs_server envOk1 emptyCache "203.0.113.5" 27015 3).networkCalls +
      (query_cs_server envOk2 (query_cs_server envOk1 emptyCache "203.0.113.5" 27015 3).cache
        "203.0.113.5" 27015 3).networkCalls ≤ 1 ∧
    (query_cs_server envOk2 (query_cs_server envOk1 emptyCache "203.0.113.5" 27015 3).cache
        "203.0.113.5" 27015 3).result.pingOf =
      (query_cs_server envOk1 emptyCache "203.0.113.5" 27015 3).result.pingOf := by
  have httl : envOk2.lookupTime - envOk1.storeTime < CACHE_DURATION := by
    show (2 : ℚ) - 1 < CACHE_DURATION
    rw [CACHE_DURATION]
    norm_num
  have h := claim_C4_hit_identical envOk1 envOk2 emptyCache "203.0.113.5" 27015 3 3
    info0 rfl rfl httl
  exact ⟨rfl, rfl, httl, h.1, h.2.1, h.2.2.1, h.2.2.2⟩

/-- C5 counterexample: on a timeout the code returns the message
`Connection timeout - server may be offline`, which is not the message
the claim prescribes. -/
theorem claim_C5_counterexample :
    (query_cs_server envErr1 emptyCache "203.0.113.5" 27015 3).result =
      .failure "Connection timeout - server may be offline" ∧
    "Connection timeout - server may be offline" ≠
      "timeout — server may be offline" :=
  ⟨rfl, by decide⟩

/-- C5 amended: on a cache miss a failing info query yields exactly one
of the three error kinds with the messages of the code: a timeout yields
`Connection timeout - server may be offline`, a transport rejection
yields `Connection refused - invalid IP or port`, and any other
exception yields `Failed to query server: ` followed by the exception
details. -/
theorem claim_C5_error_taxonomy (env : NetworkBehavior) (cache : Cache)
    (ip : String) (port : ℤ) (t : ℚ)
    (hmiss : get_cached_query cache env.lookupTime ip port = none) :
    (env.infoResult = .error .timeout →
      (query_cs_server env cache ip port t).result =
        .failure "Connection timeout - server may be offline") ∧
    (env.infoResult = .error .connectionRefused →
      (query_cs_server env cache ip port t).result =
        .failure "Connection refused - invalid IP or port") ∧
    (∀ e, env.infoResult = .error (.other e) →
      (query_cs_server env cache ip port t).result =
        .failure ("Failed to query server: " ++ e)) := by
  refine ⟨?_, ?_, ?_⟩
  · intro h; simp [query_cs_server, hmiss, h]
  · intro h; simp [query_cs_server, hmiss, h]
  · intro e h; simp [query_cs_server, hmiss, h]

/-- Witness for C5 amended: one concrete run per error kind. -/
theorem claim_C5_witness :
    get_cached_query emptyCache envErr1.lookupTime "203.0.113.5" 27015 = none ∧
    envErr1.infoResult = .error .timeout ∧
    (query_cs_server envErr1 emptyCache "203.0.113.5" 27015 3).result =
      .failure "Connection timeout - server may be offline" ∧
    envRefused.infoResult = .error .connectionRefused ∧
    (query_cs_server envRefused emptyCache "203.0.113.5" 27015 3).result =
      .failure "Connection refused - invalid IP or port" ∧
    envOther.infoResult = .error (.other "boom") ∧
    (query_cs_server envOther emptyCache "203.0.113.5" 27015 3).result =
      .failure ("Failed to query server: " ++ "boom") :=
  ⟨rfl, rfl,
    (claim_C5_error_taxonomy envErr1 emptyCache "203.0.113.5" 27015 3 rfl).1 rfl,
    rfl,
    (claim_C5_error_taxonomy envRefused emptyCache "203.0.113.5" 27015 3 rfl).2.1 rfl,
    rfl,
    (claim_C5_error_taxonomy envOther emptyCache "203.0.113.5" 27015 3 rfl).2.2 "boom" rfl⟩

/-- C6 counterexample: a kept player entry does not carry the parsed
connected-duration unchanged: a parsed duration of `1/8` seconds is
stored rounded to `3/25 = 0.12`. -/
theorem claim_C6_counterexample :
    rawPlayers0.map RawPlayer.duration = [0, 1/8] ∧
    (query_cs_server envPlayers emptyCache "203.0.113.5" 27015 3).result.playerList =
      [⟨"alpha", 5, 3/25⟩] ∧
    (3 : ℚ)/25 ≠ 1/8 := by
  refine ⟨rfl, ?_, by norm_num⟩
  have h1 : (query_cs_server envPlayers emptyCache "203.0.113.5" 27015 3).result.playerList =
      build_player_list rawPlayers0 := by
    simp [query_cs_server, show get_cached_query emptyCache envPlayers.lookupTime
      "203.0.113.5" 27015 = none from rfl,
      show envPlayers.infoResult = .ok info0 from rfl,
      show envPlayers.playersResult = .ok rawPlayers0 from rfl,
      QueryResult.playerList, info_data]
  have hfloor : ⌊(1/8 * 100 : ℚ)⌋ = 12 := by norm_num
  have h2 : pyRound2 (1/8) = 3/25 := by
    unfold pyRound2 roundHalfEven
    rw [hfloor]
    norm_num
  rw [h1]
  show build_player_list rawPlayers0 = [⟨"alpha", 5, 3/25⟩]
  rw [show build_player_list rawPlayers0 = [⟨"alpha", 5, pyRound2 (1/8)⟩] from rfl, h2]

/-- C6 amended: on a successful call every returned player entry has a
non-empty name; records with an empty name are discarded, and the kept
entries carry the parsed name and score and the parsed duration rounded
to two decimal places, in the order received. -/
theorem claim_C6_player_list (env : NetworkBehavior) (cache : Cache)
    (ip : String) (port : ℤ) (t : ℚ) (info : InfoResponse) (ps : List RawPlayer)
    (hmiss : get_cached_query cache env.lookupTime ip port = none)
    (hinfo : env.infoResult = .ok info)
    (hps : env.playersResult = .ok ps) :
    (query_cs_server env cache ip port t).result.playerList =
      (ps.filter fun p => p.name != "").map
        (fun p => ⟨p.name, p.score, pyRound2 p.duration⟩) ∧
    ∀ q ∈ (query_cs_server env cache ip port t).result.playerList, q.name ≠ "" := by
  have h1 : (query_cs_server env cache ip port t).result.playerList =
      build_player_list ps := by
    simp [query_cs_server, hmiss, hinfo, hps, QueryResult.playerList, info_data]
  rw [h1, build_player_list_eq]
  refine ⟨rfl, ?_⟩
  intro q hq
  simp only [List.mem_map, List.mem_filter] at hq
  obtain ⟨p, ⟨_, hname⟩, rfl⟩ := hq
  simpa using hname

/-- Witness for C6 amended: the concrete run on `rawPlayers0`. -/
theorem claim_C6_witness :
    get_cached_query emptyCache envPlayers.lookupTime "203.0.113.5" 27015 = none ∧
    envPlayers.infoResult = .ok info0 ∧
    envPlayers.playersResult = .ok rawPlayers0 ∧
    (query_cs_server envPlayers emptyCache "203.0.113.5" 27015 3).result.playerList =
      (rawPlayers0.filter fun p => p.name != "").map
        (fun p => ⟨p.name, p.score, pyRound2 p.duration⟩) ∧
    ∀ q ∈ (query_cs_server envPlayers emptyCache "203.0.113.5" 27015 3).result.playerList,
      q.name ≠ "" := by
  have h := claim_C6_player_list envPlayers emptyCache "203.0.113.5" 27015 3
    info0 rawPlayers0 rfl rfl rfl
  exact ⟨rfl, rfl, rfl, h.1, h.2⟩

/-- C7: the direct query route rejects any port outside 1-65535 with the
validation error before attempting a query, passes any port inside the
range through unchanged, and defaults the timeout to 3.0 seconds when it
is not supplied. -/
theorem claim_C7_port_validation (env : NetworkBehavior) (cache : Cache)
    (ip : String) (port : ℤ) (timeout : Option ℚ) :
    (¬ (1 ≤ port ∧ port ≤ 65535) →
      query_server_route env cache ip port timeout =
        .error "Port must be between 1 and 65535") ∧
    ((1 ≤ port ∧ port ≤ 65535) →
      validate_port port = .ok port ∧
      query_server_route env cache ip port timeout =
        .ok (query_cs_server env cache ip port (timeout.getD 3))) ∧
    ({ ip := ip, port := port } : ServerQueryRequest).timeout = 3 := by
  refine ⟨?_, ?_, rfl⟩
  · intro h
    simp [query_server_route, parse_server_query_request, validate_port, h, Except.map]
  · intro h
    refine ⟨?_, ?_⟩
    · simp [validate_port, h]
    · simp [query_server_route, parse_server_query_request, validate_port, h, Except.map]

/-- Witness for C7: port 70000 is rejected, port 27015 passes with the
default timeout. -/
theorem claim_C7_witness :
    ¬ ((1 : ℤ) ≤ 70000 ∧ (70000 : ℤ) ≤ 65535) ∧
    query_server_route envOk1 emptyCache "203.0.113.5" 70000 none =
      .error "Port must be between 1 and 65535" ∧
    ((1 : ℤ) ≤ 27015 ∧ (27015 : ℤ) ≤ 65535) ∧
    validate_port 27015 = .ok 27015 ∧
    query_server_route envOk1 emptyCache "203.0.113.5" 27015 none =
      .ok (query_cs_server envOk1 emptyCache "203.0.113.5" 27015
        ((none : Option ℚ).getD 3)) ∧
    ({ ip := "203.0.113.5", port := 27015 } : ServerQueryRequest).timeout = 3 := by
  have hbad : ¬ ((1 : ℤ) ≤ 70000 ∧ (70000 : ℤ) ≤ 65535) := by norm_num
  have hgood : (1 : ℤ) ≤ 27015 ∧ (27015 : ℤ) ≤ 65535 := by norm_num
  have h1 := claim_C7_port_validation envOk1 emptyCache "203.0.113.5" 70000 none
  have h2 := claim_C7_port_validation envOk1 emptyCache "203.0.113.5" 27015 none
  exact ⟨hbad, h1.1 hbad, hgood, (h2.2.1 hgood).1, (h2.2.1 hgood).2, h2.2.2⟩

/-- C8: on a successful query the returned ping is the elapsed time
between the send and receive of the info request, converted to
milliseconds and rounded half-to-even to two decimal places, and it is
non-negative whenever the clock does not move backwards. -/
theorem claim_C8_ping (env : NetworkBehavior) (cache : Cache)
    (ip : String) (port : ℤ) (t : ℚ) (info : InfoResponse)
    (hmiss : get_cached_query cache env.lookupTime ip port = none)
    (hinfo : env.infoResult = .ok info)
    (hclock : env.sendTime ≤ env.recvTime) :
    (query_cs_server env cache ip port t).result.pingOf =
      some (pyRound2 ((env.recvTime - env.sendTime) * 1000)) ∧
    (0 : ℚ) ≤ pyRound2 ((env.recvTime - env.sendTime) * 1000) := by
  constructor
  · cases hps : env.playersResult with
    | ok ps => simp [query_cs_server, hmiss, hinfo, hps, QueryResult.pingOf, info_data]
    | error e => simp [query_cs_server, hmiss, hinfo, hps, QueryResult.pingOf, info_data]
  · apply pyRound2_nonneg
    have hd : (0 : ℚ) ≤ env.recvTime - env.sendTime := sub_nonneg.mpr hclock
    exact mul_nonneg hd (by norm_num)

/-- Witness for C8: the concrete successful run `envOk1` with send time
0 and receive time 1/2. -/
theorem claim_C8_witness :
    get_cached_query emptyCache envOk1.lookupTime "203.0.113.5" 27015 = none ∧
    envOk1.infoResult = .ok info0 ∧
    envOk1.sendTime ≤ envOk1.recvTime ∧
    (query_cs_server envOk1 emptyCache "203.0.113.5" 27015 3).result.pingOf =
      some (pyRound2 ((envOk1.recvTime - envOk1.sendTime) * 1000)) ∧
    (0 : ℚ) ≤ pyRound2 ((envOk1.recvTime - envOk1.sendTime) * 1000) := by
  have hclock : envOk1.sendTime ≤ envOk1.recvTime := by
    show (0 : ℚ) ≤ 1/2
    norm_num
  have h := claim_C8_ping envOk1 emptyCache "203.0.113.5" 27015 3 info0 rfl rfl hclock
  exact ⟨rfl, rfl, hclock, h.1, h.2⟩

/-- C9: with distinct keys in the saved field-visibility mapping, the
filtered status data contains a field-value pair exactly when the
mapping marks the field true and the field is present in the query
result, with the value unchanged; fields marked false or absent from
the mapping never appear. -/
theorem claim_C9_field_filter (enabled : List (String × Bool)) (d : SuccessData)
    (hnodup : (enabled.map Prod.fst).Nodup) :
    ∀ f v, ((f, v) ∈ filter_enabled_fields enabled d ↔
      enabled.lookup f = some true ∧ d.lookup f = some v) := by
  intro f v
  rw [lookup_eq_some_iff hnodup]
  unfold filter_enabled_fields
  simp only [List.mem_filterMap]
  constructor
  · rintro ⟨⟨g, en⟩, hmem, hout⟩
    by_cases hen : en = true
    · rw [if_pos hen] at hout
      rcases Option.map_eq_some'.mp hout with ⟨w, hw, heq⟩
      injection heq with hgf hwv
      subst hgf
      subst hwv
      subst hen
      exact ⟨hmem, hw⟩
    · rw [if_neg hen] at hout
      exact Option.noConfusion hout
  · rintro ⟨hmem, hlook⟩
    exact ⟨(f, true), hmem, by simp [hlook]⟩

/-- Witness for C9: the sample mapping `enabled0` and sample data
`data0` at the field `hostname`. -/
theorem claim_C9_witness :
    (enabled0.map Prod.fst).Nodup ∧
    (("hostname", FieldValue.str "Test Server") ∈ filter_enabled_fields enabled0 data0 ↔
      enabled0.lookup "hostname" = some true ∧
      data0.lookup "hostname" = some (.str "Test Server")) :=
  ⟨by decide,
    claim_C9_field_filter enabled0 data0 (by decide) "hostname" (.str "Test Server")⟩

/-- C10: the cache-key function is injective on `(ip, port)` pairs with
integer ports, and consequently storing under one endpoint never
overwrites or shadows the entry of a different endpoint. -/
theorem claim_C10_cache_key_injective (ip1 ip2 : String) (p1 p2 : ℤ)
    (cache : Cache) (t : ℚ) (data : QueryResult) :
    (get_cache_key ip1 p1 = get_cache_key ip2 p2 → ip1 = ip2 ∧ p1 = p2) ∧
    ((ip1, p1) ≠ (ip2, p2) →
      set_cached_query cache t ip1 p1 data (get_cache_key ip2 p2) =
        cache (get_cache_key ip2 p2)) := by
  constructor
  · exact get_cache_key_injective
  · intro hne
    have hkey : ¬ (get_cache_key ip2 p2 = get_cache_key ip1 p1) := by
      intro heq
      obtain ⟨h1, h2⟩ := get_cache_key_injective heq
      exact hne (by rw [h1, h2])
    simp [set_cached_query, hkey]

/-- Witness for C10: two distinct concrete endpoints. -/
theorem claim_C10_witness :
    ("203.0.113.5" = "203.0.113.5" ∧ (27015 : ℤ) = 27015) ∧
    set_cached_query emptyCache 0 "203.0.113.5" 27015 r0
        (get_cache_key "198.51.100.7" 27016) =
      emptyCache (get_cache_key "198.51.100.7" 27016) :=
  ⟨(claim_C10_cache_key_injective "203.0.113.5" "203.0.113.5" 27015 27015
      emptyCache 0 r0).1 rfl,
    (claim_C10_cache_key_injective "203.0.113.5" "198.51.100.7" 27015 27016
      emptyCache 0 r0).2 (by decide)⟩

end CSWidget
